import Mathlib

/-!
Verification of the `BankAccount` class (src/bank_account.py).

Embedding choices:
* Python floats are modelled as exact rationals (`ℚ`): the program only adds,
  negates and compares balances, and every Python float is a dyadic rational,
  so exact rational arithmetic is a faithful model of the values involved
  (IEEE rounding artifacts are outside the model).
* Python values passed to `float(...)` are modelled by `PyVal`
  (a float, an int, or a string); `pyFloat` models the builtin `float()`.
* A raised `ValueError` is modelled by `PyErr.valueError` carrying the message.
  The spec calls this error kind `InvalidArgument`.
* Methods are state transformers `BankAccount → ... → BankAccount × Option PyErr`:
  the returned account is the (possibly mutated) `self`, and `some e` means the
  call raised `e`.  This keeps the object observable even on the raising paths,
  exactly as in Python.
* `Subject.notify` comes from `patterns.observer.subject`, which is not part of
  the sources; following spec section 4.2 (synchronous publish to listeners) it
  is modelled as appending the published message to a log carried by the account.
* The finiteness invariant (C7) needs the non-finite floats Python accepts, which
  the exact-rational domain cannot represent: a second, extended embedding of the
  same source (`PyFloat`, `depositEx`, `withdrawEx`, `updated_balanceEx`) carries
  `inf`, `-inf` and `nan` with Python float comparison and addition semantics,
  and the finiteness claim is settled against it.
-/

namespace BankAcct

/-- A Python value that may be passed where the code calls `float(...)`. -/
inductive PyVal where
  | float (q : ℚ)
  | int (n : Int)
  | str (s : String)
  deriving DecidableEq, Repr

/-- A raised Python exception; the code only raises `ValueError` (the error
kind the spec names `InvalidArgument`), distinguished by message text. -/
inductive PyErr where
  | valueError (msg : String)
  deriving DecidableEq, Repr

/-- Numeric value of a list of decimal digit characters. -/
def digitsToNat (cs : List Char) : Nat :=
  cs.foldl (fun acc c => acc * 10 + (c.toNat - 48)) 0

/-- Consume an optional leading sign, returning the sign and the rest. -/
def takeSign : List Char → Int × List Char
  | '-' :: cs => (-1, cs)
  | '+' :: cs => (1, cs)
  | cs => (1, cs)

/-- Split at the first `e`/`E` (exponent marker), if any. -/
def splitExpAux : List Char → Option (List Char × List Char)
  | [] => none
  | c :: cs =>
    if c == 'e' || c == 'E' then some ([], cs)
    else
      match splitExpAux cs with
      | some (m, e) => some (c :: m, e)
      | none => none

/-- Parse an unsigned mantissa `digits [. digits]` (at least one digit in
total) into its digit value and the number of fractional digits. -/
def parseMantissa (cs : List Char) : Option (Nat × Nat) :=
  let ip := cs.takeWhile Char.isDigit
  let rest := cs.dropWhile Char.isDigit
  match rest with
  | [] => if ip.isEmpty then none else some (digitsToNat ip, 0)
  | '.' :: fs =>
    if fs.all Char.isDigit && !(ip.isEmpty && fs.isEmpty) then
      some (digitsToNat (ip ++ fs), fs.length)
    else none
  | _ => none

/-- Build the rational `sgn * m * 10 ^ (e - fracLen)` without using the
(irreducible) field operations on `ℚ`, so that it evaluates in the kernel. -/
def scaledRat (sgn : Int) (m : Nat) (fracLen : Nat) (e : Int) : ℚ :=
  let t : Int := e - (fracLen : Int)
  if 0 ≤ t then mkRat (sgn * (m : Int) * ((10 : Int) ^ t.toNat)) 1
  else mkRat (sgn * (m : Int)) ((10 : Nat) ^ (-t).toNat)

/-- Parse the character list of a float literal:
`[sign] digits [. digits] [(e|E) [sign] digits]`. -/
def parseFloatChars (cs : List Char) : Option ℚ :=
  let (sgn, cs1) := takeSign cs
  match splitExpAux cs1 with
  | none =>
    match parseMantissa cs1 with
    | some (m, fl) => some (scaledRat sgn m fl 0)
    | none => none
  | some (mant, ex) =>
    match parseMantissa mant with
    | none => none
    | some (m, fl) =>
      let (esgn, ed) := takeSign ex
      if ed.isEmpty || !ed.all Char.isDigit then none
      else some (scaledRat sgn m fl (esgn * (digitsToNat ed : Int)))

/-- Drop leading and trailing whitespace, as `float()` does to its string. -/
def trimChars (cs : List Char) : List Char :=
  ((cs.dropWhile Char.isWhitespace).reverse.dropWhile Char.isWhitespace).reverse

/-- Model of the Python builtin `float(x)` on the values of `PyVal`:
a float converts to itself, an int converts exactly, and a string is parsed
as a (whitespace-trimmed, optionally signed) decimal literal with an optional
exponent.  The special spellings `inf`/`nan` and digit underscores are not
modelled; `none` means `float()` raises `ValueError`. -/
def pyFloat : PyVal → Option ℚ
  | PyVal.float q => some q
  | PyVal.int n => some (mkRat n 1)
  | PyVal.str s => parseFloatChars (trimChars s.data)

/-- Decimal digits of the fraction `r / den` (with `r < den`), dropping
trailing zeros; computed with fuel, enough for every value the claims use. -/
def fracDigitsNat : Nat → Nat → Nat → List Char
  | 0, _, _ => []
  | fuel + 1, r, den =>
    if r = 0 then []
    else
      let r10 := r * 10
      Char.ofNat (48 + r10 / den) :: fracDigitsNat fuel (r10 % den) den

/-- Model of the Python `str()`/`repr()` of a float (as used by f-strings):
minimal decimal digits, always at least one fractional digit, e.g. `40.0`.
Scientific notation for very large/small magnitudes is not modelled; the
values the program formats are plain decimals. -/
def pyReprFloat (q : ℚ) : String :=
  let sgn := if q.num < 0 then "-" else ""
  let n := q.num.natAbs
  let ds := fracDigitsNat 30 (n % q.den) q.den
  sgn ++ toString (n / q.den) ++ "." ++ (if ds.isEmpty then "0" else String.mk ds)

/-- Model of Python `str()` on a `PyVal` (floats print via `pyReprFloat`). -/
def pyStr : PyVal → String
  | PyVal.float q => pyReprFloat q
  | PyVal.int n => toString n
  | PyVal.str s => s

/-- The integer number of cents of `q`, rounding half to even: the rounding
Python `"{:,.2f}".format` applies (to the exact value, in this model). -/
def roundCents (q : ℚ) : Int :=
  let t : Int := q.num * 100
  let d : Int := (q.den : Int)
  let f := t.fdiv d
  let r := t - f * d
  if 2 * r < d then f
  else if d < 2 * r then f + 1
  else if f % 2 = 0 then f else f + 1

/-- Insert a comma after every three characters of a reversed digit list. -/
def insertCommasRev : List Char → List Char
  | a :: b :: c :: d :: rest => a :: b :: c :: ',' :: insertCommasRev (d :: rest)
  | l => l

/-- Thousands-separate a digit string: `1234` becomes `1,234`. -/
def groupDigits (s : String) : String :=
  String.mk (insertCommasRev s.data.reverse).reverse

/-- Model of the Python format `"{:,.2f}".format(q)`: fixed two decimals,
thousands-separated integer part, leading `-` for negative values. -/
def fmtCommas2 (q : ℚ) : String :=
  let cents := roundCents q
  let sgn := if cents < 0 then "-" else ""
  let n := cents.natAbs
  let ip := n / 100
  let fr := n % 100
  sgn ++ groupDigits (toString ip) ++ "." ++
    (if fr < 10 then "0" ++ toString fr else toString fr)

/-- The currency rendering `"${:,.2f}".format(q)` used in the error messages
and in `__str__`: `fmtCommas2` prefixed with a dollar sign. -/
def currencyFmt (q : ℚ) : String := "$" ++ fmtCommas2 q

/-- The account state: identity fields, balance, creation date, and the log
of messages published through `Subject.notify` (see module docstring). -/
structure BankAccount where
  account_number : Int
  client_number : Int
  balance : ℚ
  date_created : String
  notifications : List String
  deriving DecidableEq, Repr

/-- `LARGE_TRANSACTION_THRESHOLD: float = 9999.99`, as the exact rational. -/
def LARGE_TRANSACTION_THRESHOLD : ℚ := mkRat 999999 100

/-- `LOW_BALANCE_LEVEL: float = 50.0`. -/
def LOW_BALANCE_LEVEL : ℚ := 50

/-- Modelled from the spec: `Subject.notify` of `patterns.observer.subject`
is not among the sources; per spec section 4.2, `publish(message)` delivers
the message synchronously to the subscribed listeners, which the model
records by appending the message to the published-message log. -/
def notify (a : BankAccount) (m : String) : BankAccount :=
  { a with notifications := a.notifications ++ [m] }

/-- The f-string `f"Low balance warning {self.balance}: on account
{self.account_number}"` of `updated_balance`. -/
def lowMessage (bal : ℚ) (n : Int) : String :=
  "Low balance warning " ++ pyReprFloat bal ++ ": on account " ++ toString n

/-- The f-string `f"Large transaction {amount}: on account
{self.account_number}\nDetails: updated balance is {self.balance}"`. -/
def largeMessage (amount : PyVal) (bal : ℚ) (n : Int) : String :=
  "Large transaction " ++ pyStr amount ++ ": on account " ++ toString n ++
    "\nDetails: updated balance is " ++ pyReprFloat bal

/-- `updated_balance` (bank_account.py lines 83-97): adds `float(amount)` to
the balance, then publishes a low-balance notification when the new balance
is below `LOW_BALANCE_LEVEL` and a large-transaction notification when it is
above `LARGE_TRANSACTION_THRESHOLD`; a failing `float()` raises
`ValueError("Amount must be numeric.")` before any mutation. -/
def updated_balance (a : BankAccount) (amount : PyVal) : BankAccount × Option PyErr :=
  match pyFloat amount with
  | none => (a, some (PyErr.valueError "Amount must be numeric."))
  | some q =>
    let a1 : BankAccount := { a with balance := a.balance + q }
    let a2 : BankAccount :=
      if a1.balance < LOW_BALANCE_LEVEL then
        notify a1 (lowMessage a1.balance a1.account_number)
      else a1
    let a3 : BankAccount :=
      if a2.balance > LARGE_TRANSACTION_THRESHOLD then
        notify a2 (largeMessage amount a2.balance a2.account_number)
      else a2
    (a3, none)

/-- `deposit` (bank_account.py lines 99-112). -/
def deposit (a : BankAccount) (amount : PyVal) : BankAccount × Option PyErr :=
  match pyFloat amount with
  | none =>
    (a, some (PyErr.valueError ("Deposit amount: " ++ pyStr amount ++ " must be numeric.")))
  | some q =>
    if q ≤ 0 then
      (a, some (PyErr.valueError ("Deposit amount: " ++ currencyFmt q ++ " must be positive.")))
    else
      updated_balance a (PyVal.float q)

/-- `withdraw` (bank_account.py lines 114-131). -/
def withdraw (a : BankAccount) (amount : PyVal) : BankAccount × Option PyErr :=
  match pyFloat amount with
  | none =>
    (a, some (PyErr.valueError ("Withdraw amount: " ++ pyStr amount ++ " must be numeric.")))
  | some q =>
    if q ≤ 0 then
      (a, some (PyErr.valueError ("Withdraw amount: " ++ currencyFmt q ++ " must be positive.")))
    else if q > a.balance then
      (a, some (PyErr.valueError ("Withdrawal amount: " ++ currencyFmt q ++
        " must not exceed the current account balance: " ++ currencyFmt a.balance)))
    else
      updated_balance a (PyVal.float (-q))

/-- `__str__` (bank_account.py lines 133-137). -/
def bankAccountStr (a : BankAccount) : String :=
  "Account Number: " ++ toString a.account_number ++ " Balance: $" ++ fmtCommas2 a.balance

/-- The attributes of `self` while `__init__` runs: each starts unset
(`none`, the attribute does not exist yet) and is assigned in program order. -/
structure InitSelf where
  date_created : Option String
  account_number : Option Int
  client_number : Option Int
  balance : Option ℚ
  deriving DecidableEq, Repr

/-- `self` as `__init__` receives it, before any attribute assignment. -/
def emptySelf : InitSelf :=
  { date_created := none, account_number := none, client_number := none, balance := none }

/-- `__init__` (bank_account.py lines 36-69) as a transformer of the `self`
attribute state: `date_created` is set first (defaulting to 1970-01-01), the
identity fields are validated with `isinstance(_, int)`, and an unparseable
balance sets `self.__balance = 0.0` and then raises
`ValueError("Invalid balance, set to $0.0")`. -/
def initBA (s : InitSelf) (account_number client_number balance : PyVal)
    (date_created : Option String) : InitSelf × Option PyErr :=
  let s1 := { s with date_created := some (date_created.getD "1970-01-01") }
  match account_number with
  | PyVal.int an =>
    let s2 := { s1 with account_number := some an }
    match client_number with
    | PyVal.int cn =>
      let s3 := { s2 with client_number := some cn }
      match pyFloat balance with
      | some q => ({ s3 with balance := some q }, none)
      | none =>
        ({ s3 with balance := some 0 }, some (PyErr.valueError "Invalid balance, set to $0.0"))
    | _ => (s2, some (PyErr.valueError "client number is invalid"))
  | _ => (s1, some (PyErr.valueError "account number is invlid"))

/-- The constructor expression `BankAccount(...)` seen from the caller:
running `__init__` on a fresh object yields the object when no error was
raised, and only the error otherwise (the caller receives no reference). -/
def mkBankAccount (account_number client_number balance : PyVal)
    (date_created : Option String) : Except PyErr BankAccount :=
  match account_number with
  | PyVal.int an =>
    match client_number with
    | PyVal.int cn =>
      match pyFloat balance with
      | some q =>
        Except.ok
          { account_number := an, client_number := cn, balance := q,
            date_created := date_created.getD "1970-01-01", notifications := [] }
      | none => Except.error (PyErr.valueError "Invalid balance, set to $0.0")
    | _ => Except.error (PyErr.valueError "client number is invalid")
  | _ => Except.error (PyErr.valueError "account number is invlid")

/-- Is `pat` a leading segment of `l`? -/
def leadsList (pat l : List Char) : Bool :=
  match pat, l with
  | [], _ => true
  | _ :: _, [] => false
  | p :: ps, c :: cs => p == c && leadsList ps cs

/-- Does `pat` occur contiguously inside `l`? -/
def hasSub (pat : List Char) : List Char → Bool
  | [] => leadsList pat []
  | c :: cs => leadsList pat (c :: cs) || hasSub pat cs

/-- Does the string `pat` occur contiguously inside `s`? -/
def strContains (s pat : String) : Bool := hasSub pat.data s.data

/-- The scenario account `Account(1001, 5001, 100.0)` of spec section 8. -/
def acct1001 : BankAccount :=
  { account_number := 1001, client_number := 5001, balance := 100,
    date_created := "1970-01-01", notifications := [] }

/-- An account constructed with a negative initial balance, `Account(1001,
5001, -10.0)`; the constructor accepts any parseable balance. -/
def acctNeg : BankAccount :=
  { account_number := 1001, client_number := 5001, balance := -10,
    date_created := "1970-01-01", notifications := [] }

/-- A low-balance account used to exercise repeated below-threshold updates. -/
def acctLow : BankAccount :=
  { account_number := 7, client_number := 8, balance := 10,
    date_created := "1970-01-01", notifications := [] }

/-- A high-balance account used to exercise repeated above-threshold updates. -/
def acctHigh : BankAccount :=
  { account_number := 7, client_number := 8, balance := 20000,
    date_created := "1970-01-01", notifications := [] }

/-- A Python float in the extended model: a finite value (exact rational) or
one of the non-finite IEEE values `inf`, `-inf`, `nan`, all of which the real
`float()` produces (e.g. from the strings `inf` and `nan`). -/
inductive PyFloat where
  | fin (q : ℚ)
  | inf
  | ninf
  | nan
  deriving DecidableEq, Repr

/-- Python `<` on floats: every comparison involving `nan` is false, the
infinities compare as expected, finite values compare exactly. -/
def PyFloat.lt : PyFloat → PyFloat → Bool
  | PyFloat.nan, _ => false
  | _, PyFloat.nan => false
  | PyFloat.fin a, PyFloat.fin b => decide (a < b)
  | PyFloat.fin _, PyFloat.inf => true
  | PyFloat.fin _, PyFloat.ninf => false
  | PyFloat.inf, _ => false
  | PyFloat.ninf, PyFloat.ninf => false
  | PyFloat.ninf, _ => true

/-- Python `<=` on floats: false whenever `nan` is involved. -/
def PyFloat.le : PyFloat → PyFloat → Bool
  | PyFloat.nan, _ => false
  | _, PyFloat.nan => false
  | PyFloat.fin a, PyFloat.fin b => decide (a ≤ b)
  | PyFloat.fin _, PyFloat.inf => true
  | PyFloat.fin _, PyFloat.ninf => false
  | PyFloat.inf, PyFloat.inf => true
  | PyFloat.inf, _ => false
  | PyFloat.ninf, _ => true

/-- Python float addition: `nan` propagates, opposite infinities give `nan`,
an infinity absorbs finite values, finite values add exactly.  (Overflow of
two finite doubles past the IEEE range is not modelled; the non-finite
*inputs* `float()` accepts are, and they already reach every absorbing
case.) -/
def PyFloat.add : PyFloat → PyFloat → PyFloat
  | PyFloat.nan, _ => PyFloat.nan
  | _, PyFloat.nan => PyFloat.nan
  | PyFloat.inf, PyFloat.ninf => PyFloat.nan
  | PyFloat.ninf, PyFloat.inf => PyFloat.nan
  | PyFloat.inf, _ => PyFloat.inf
  | _, PyFloat.inf => PyFloat.inf
  | PyFloat.ninf, _ => PyFloat.ninf
  | _, PyFloat.ninf => PyFloat.ninf
  | PyFloat.fin a, PyFloat.fin b => PyFloat.fin (a + b)

/-- Python unary minus on floats. -/
def PyFloat.neg : PyFloat → PyFloat
  | PyFloat.fin a => PyFloat.fin (-a)
  | PyFloat.inf => PyFloat.ninf
  | PyFloat.ninf => PyFloat.inf
  | PyFloat.nan => PyFloat.nan

/-- `math.isfinite`: is this float neither an infinity nor `nan`? -/
def PyFloat.isFinite : PyFloat → Bool
  | PyFloat.fin _ => true
  | _ => false

/-- `repr`/`str` of a possibly non-finite float: `inf`, `-inf`, `nan`, or the
decimal rendering of the finite value. -/
def pyFloatRepr : PyFloat → String
  | PyFloat.fin q => pyReprFloat q
  | PyFloat.inf => "inf"
  | PyFloat.ninf => "-inf"
  | PyFloat.nan => "nan"

/-- A Python value in the extended model (the float may be non-finite). -/
inductive PyValEx where
  | float (x : PyFloat)
  | int (n : Int)
  | str (s : String)
  deriving DecidableEq, Repr

/-- Lower-case an ASCII letter (for the case-insensitive special spellings). -/
def lowerAscii (c : Char) : Char :=
  if 'A' ≤ c ∧ c ≤ 'Z' then Char.ofNat (c.toNat + 32) else c

/-- Model of `float()` in the extended model: as `pyFloat`, plus the special
spellings `inf`, `infinity` and `nan` (case-insensitive, optionally signed,
the sign of `nan` being ignored) which parse to the non-finite values. -/
def pyFloatEx : PyValEx → Option PyFloat
  | PyValEx.float x => some x
  | PyValEx.int n => some (PyFloat.fin (mkRat n 1))
  | PyValEx.str s =>
    let cs := trimChars s.data
    let (sgn, rest) := takeSign cs
    let low := rest.map lowerAscii
    if low = ['i', 'n', 'f'] || low = ['i', 'n', 'f', 'i', 'n', 'i', 't', 'y'] then
      some (if sgn = 1 then PyFloat.inf else PyFloat.ninf)
    else if low = ['n', 'a', 'n'] then
      some PyFloat.nan
    else
      (parseFloatChars cs).map PyFloat.fin

/-- Python `str()` on a `PyValEx`. -/
def pyStrEx : PyValEx → String
  | PyValEx.float x => pyFloatRepr x
  | PyValEx.int n => toString n
  | PyValEx.str s => s

/-- `"{:,.2f}".format` on a possibly non-finite float: the non-finite values
format as their repr (`inf`, `-inf`, `nan`). -/
def fmtCommas2Ex : PyFloat → String
  | PyFloat.fin q => fmtCommas2 q
  | x => pyFloatRepr x

/-- `"${:,.2f}".format` on a possibly non-finite float. -/
def currencyFmtEx (x : PyFloat) : String := "$" ++ fmtCommas2Ex x

/-- The account state of the extended model: as `BankAccount`, with the
balance a possibly non-finite float. -/
structure BankAccountEx where
  account_number : Int
  client_number : Int
  balance : PyFloat
  date_created : String
  notifications : List String
  deriving DecidableEq, Repr

/-- `LARGE_TRANSACTION_THRESHOLD` in the extended float domain. -/
def LARGE_TRANSACTION_THRESHOLD_EX : PyFloat := PyFloat.fin (mkRat 999999 100)

/-- `LOW_BALANCE_LEVEL` in the extended float domain. -/
def LOW_BALANCE_LEVEL_EX : PyFloat := PyFloat.fin 50

/-- Modelled from the spec: `Subject.notify` in the extended model, exactly
as `notify` above (spec section 4.2, publish appends to the message log). -/
def notifyEx (a : BankAccountEx) (m : String) : BankAccountEx :=
  { a with notifications := a.notifications ++ [m] }

/-- The low-balance f-string of `updated_balance`, extended model. -/
def lowMessageEx (bal : PyFloat) (n : Int) : String :=
  "Low balance warning " ++ pyFloatRepr bal ++ ": on account " ++ toString n

/-- The large-transaction f-string of `updated_balance`, extended model. -/
def largeMessageEx (amount : PyValEx) (bal : PyFloat) (n : Int) : String :=
  "Large transaction " ++ pyStrEx amount ++ ": on account " ++ toString n ++
    "\nDetails: updated balance is " ++ pyFloatRepr bal

/-- `updated_balance` (bank_account.py lines 83-97) over the extended float
domain; the threshold comparisons use Python float `<` (false on `nan`). -/
def updated_balanceEx (a : BankAccountEx) (amount : PyValEx) : BankAccountEx × Option PyErr :=
  match pyFloatEx amount with
  | none => (a, some (PyErr.valueError "Amount must be numeric."))
  | some x =>
    let a1 : BankAccountEx := { a with balance := PyFloat.add a.balance x }
    let a2 : BankAccountEx :=
      if PyFloat.lt a1.balance LOW_BALANCE_LEVEL_EX then
        notifyEx a1 (lowMessageEx a1.balance a1.account_number)
      else a1
    let a3 : BankAccountEx :=
      if PyFloat.lt LARGE_TRANSACTION_THRESHOLD_EX a2.balance then
        notifyEx a2 (largeMessageEx amount a2.balance a2.account_number)
      else a2
    (a3, none)

/-- `deposit` (bank_account.py lines 99-112) over the extended float domain:
`amount <= 0` is Python float `<=`, so `inf` and `nan` pass the check. -/
def depositEx (a : BankAccountEx) (amount : PyValEx) : BankAccountEx × Option PyErr :=
  match pyFloatEx amount with
  | none =>
    (a, some (PyErr.valueError ("Deposit amount: " ++ pyStrEx amount ++ " must be numeric.")))
  | some x =>
    if PyFloat.le x (PyFloat.fin 0) then
      (a, some (PyErr.valueError ("Deposit amount: " ++ currencyFmtEx x ++ " must be positive.")))
    else
      updated_balanceEx a (PyValEx.float x)

/-- `withdraw` (bank_account.py lines 114-131) over the extended float
domain; `amount > self.__balance` is Python float `>` (false on `nan`). -/
def withdrawEx (a : BankAccountEx) (amount : PyValEx) : BankAccountEx × Option PyErr :=
  match pyFloatEx amount with
  | none =>
    (a, some (PyErr.valueError ("Withdraw amount: " ++ pyStrEx amount ++ " must be numeric.")))
  | some x =>
    if PyFloat.le x (PyFloat.fin 0) then
      (a, some (PyErr.valueError ("Withdraw amount: " ++ currencyFmtEx x ++ " must be positive.")))
    else if PyFloat.lt a.balance x then
      (a, some (PyErr.valueError ("Withdrawal amount: " ++ currencyFmtEx x ++
        " must not exceed the current account balance: " ++ currencyFmtEx a.balance)))
    else
      updated_balanceEx a (PyValEx.float (PyFloat.neg x))

/-- The scenario account `Account(1001, 5001, 100.0)` in the extended model:
its balance is finite. -/
def acct1001Ex : BankAccountEx :=
  { account_number := 1001, client_number := 5001, balance := PyFloat.fin 100,
    date_created := "1970-01-01", notifications := [] }

lemma updated_balance_none (a : BankAccount) (v : PyVal) (h : pyFloat v = none) :
    updated_balance a v = (a, some (PyErr.valueError "Amount must be numeric.")) := by
  unfold updated_balance
  rw [h]

lemma updated_balance_some (a : BankAccount) (v : PyVal) (q : ℚ) (h : pyFloat v = some q) :
    updated_balance a v =
      ({ account_number := a.account_number, client_number := a.client_number,
         balance := a.balance + q, date_created := a.date_created,
         notifications := a.notifications ++
           (if a.balance + q < LOW_BALANCE_LEVEL then
              [lowMessage (a.balance + q) a.account_number] else []) ++
           (if a.balance + q > LARGE_TRANSACTION_THRESHOLD then
              [largeMessage v (a.balance + q) a.account_number] else []) }, none) := by
  unfold updated_balance
  rw [h]
  by_cases h1 : a.balance + q < LOW_BALANCE_LEVEL <;>
    by_cases h2 : a.balance + q > LARGE_TRANSACTION_THRESHOLD <;>
      simp [h1, h2, notify]

lemma deposit_none (a : BankAccount) (v : PyVal) (h : pyFloat v = none) :
    deposit a v =
      (a, some (PyErr.valueError ("Deposit amount: " ++ pyStr v ++ " must be numeric."))) := by
  unfold deposit
  rw [h]

lemma deposit_nonpos (a : BankAccount) (v : PyVal) (q : ℚ)
    (h : pyFloat v = some q) (hq : q ≤ 0) :
    deposit a v =
      (a, some (PyErr.valueError ("Deposit amount: " ++ currencyFmt q ++ " must be positive."))) := by
  unfold deposit
  rw [h]
  simp [hq]

lemma deposit_pos (a : BankAccount) (v : PyVal) (q : ℚ)
    (h : pyFloat v = some q) (hq : 0 < q) :
    deposit a v = updated_balance a (PyVal.float q) := by
  unfold deposit
  rw [h]
  simp [not_le.mpr hq]

lemma withdraw_none (a : BankAccount) (v : PyVal) (h : pyFloat v = none) :
    withdraw a v =
      (a, some (PyErr.valueError ("Withdraw amount: " ++ pyStr v ++ " must be numeric."))) := by
  unfold withdraw
  rw [h]

lemma withdraw_nonpos (a : BankAccount) (v : PyVal) (q : ℚ)
    (h : pyFloat v = some q) (hq : q ≤ 0) :
    withdraw a v =
      (a, some (PyErr.valueError ("Withdraw amount: " ++ currencyFmt q ++ " must be positive."))) := by
  unfold withdraw
  rw [h]
  simp [hq]

lemma withdraw_exceed (a : BankAccount) (v : PyVal) (q : ℚ)
    (h : pyFloat v = some q) (h1 : 0 < q) (h2 : a.balance < q) :
    withdraw a v =
      (a, some (PyErr.valueError ("Withdrawal amount: " ++ currencyFmt q ++
        " must not exceed the current account balance: " ++ currencyFmt a.balance))) := by
  unfold withdraw
  rw [h]
  simp [not_le.mpr h1, h2]

lemma withdraw_ok (a : BankAccount) (v : PyVal) (q : ℚ)
    (h : pyFloat v = some q) (h1 : 0 < q) (h2 : q ≤ a.balance) :
    withdraw a v = updated_balance a (PyVal.float (-q)) := by
  unfold withdraw
  rw [h]
  simp [not_le.mpr h1, not_lt.mpr h2]

lemma leads_self_append (p t : List Char) : leadsList p (p ++ t) = true := by
  induction p with
  | nil => rfl
  | cons c cs ih => simp [leadsList, ih]

lemma leads_self (p : List Char) : leadsList p p = true := by
  have := leads_self_append p []
  simpa using this

lemma hasSub_of_leads (p l : List Char) (h : leadsList p l = true) : hasSub p l = true := by
  cases l with
  | nil => simpa [hasSub] using h
  | cons c cs => simp [hasSub, h]

lemma hasSub_append_left (xs p ys : List Char) (h : hasSub p ys = true) :
    hasSub p (xs ++ ys) = true := by
  induction xs with
  | nil => simpa using h
  | cons c cs ih => simp [hasSub, ih]

lemma strApp_assoc (a b c : String) : a ++ b ++ c = a ++ (b ++ c) := by
  cases a with
  | mk l =>
    cases b with
    | mk m =>
      cases c with
      | mk k =>
        show String.mk (l ++ m ++ k) = String.mk (l ++ (m ++ k))
        rw [List.append_assoc]

lemma strContains_tail (s₁ p : String) : strContains (s₁ ++ p) p = true := by
  unfold strContains
  rw [String.data_append]
  exact hasSub_append_left _ _ _ (hasSub_of_leads _ _ (leads_self _))

lemma strContains_mid (s₁ p s₂ : String) : strContains (s₁ ++ p ++ s₂) p = true := by
  unfold strContains
  rw [String.data_append, String.data_append, List.append_assoc]
  exact hasSub_append_left _ _ _ (hasSub_of_leads _ _ (leads_self_append _ _))

lemma low_ne_large (b b2 : ℚ) (n n2 : Int) (v : PyVal) :
    lowMessage b n ≠ largeMessage v b2 n2 := by
  intro h
  have h2 : (lowMessage b n).data.take 2 = (largeMessage v b2 n2).data.take 2 := by rw [h]
  simp only [lowMessage, largeMessage, String.data_append, List.append_assoc] at h2
  rw [List.take_append_of_le_length (by decide), List.take_append_of_le_length (by decide)] at h2
  exact absurd h2 (by decide)

/-- C1 (amended): for `0 < x ≤ balance`, `withdraw(x)` succeeds and decreases
the balance by exactly `x`; for `0 < x` with `x > balance` it raises
`InvalidArgument` whose message includes both the formatted withdrawal amount
and the formatted current balance; for `x > balance`, `x ≤ 0`, or non-numeric
`x` it raises and leaves the balance unchanged.  (The original claim asserted
the two-amount message for every `x > balance`; the `amount <= 0` check runs
first, so on a negative-balance account a negative `x > balance` raises the
must-be-positive message instead — see the counterexample.) -/
theorem C1_withdraw_amended (a : BankAccount) (x : ℚ) (v : PyVal) :
    (0 < x → x ≤ a.balance →
      (withdraw a (PyVal.float x)).2 = none ∧
      ((withdraw a (PyVal.float x)).1).balance = a.balance - x) ∧
    (0 < x → a.balance < x →
      withdraw a (PyVal.float x) =
        (a, some (PyErr.valueError ("Withdrawal amount: " ++ currencyFmt x ++
          " must not exceed the current account balance: " ++ currencyFmt a.balance))) ∧
      strContains ("Withdrawal amount: " ++ currencyFmt x ++
          " must not exceed the current account balance: " ++ currencyFmt a.balance)
        (currencyFmt x) = true ∧
      strContains ("Withdrawal amount: " ++ currencyFmt x ++
          " must not exceed the current account balance: " ++ currencyFmt a.balance)
        (currencyFmt a.balance) = true) ∧
    (x ≤ 0 →
      withdraw a (PyVal.float x) =
        (a, some (PyErr.valueError ("Withdraw amount: " ++ currencyFmt x ++ " must be positive.")))) ∧
    (a.balance < x →
      (withdraw a (PyVal.float x)).1 = a ∧ (withdraw a (PyVal.float x)).2 ≠ none) ∧
    (pyFloat v = none →
      withdraw a v =
        (a, some (PyErr.valueError ("Withdraw amount: " ++ pyStr v ++ " must be numeric.")))) := by
  refine ⟨fun hx hxb => ?_, fun hx hxb => ?_, fun hx => ?_, fun hxb => ?_, fun hv => ?_⟩
  · rw [withdraw_ok a (PyVal.float x) x rfl hx hxb,
      updated_balance_some a (PyVal.float (-x)) (-x) rfl]
    refine ⟨rfl, ?_⟩
    show a.balance + -x = a.balance - x
    ring
  · refine ⟨withdraw_exceed a (PyVal.float x) x rfl hx hxb, ?_, ?_⟩
    · rw [strApp_assoc ("Withdrawal amount: " ++ currencyFmt x)]
      exact strContains_mid _ _ _
    · exact strContains_tail _ _
  · exact withdraw_nonpos a (PyVal.float x) x rfl hx
  · by_cases hx0 : x ≤ 0
    · rw [withdraw_nonpos a (PyVal.float x) x rfl hx0]
      exact ⟨rfl, by simp⟩
    · rw [withdraw_exceed a (PyVal.float x) x rfl (lt_of_not_le hx0) hxb]
      exact ⟨rfl, by simp⟩
  · exact withdraw_none a v hv

/-- C1 counterexample: on the account `Account(1001, 5001, -10.0)` the amount
`-5` exceeds the current balance, yet `withdraw(-5)` raises the
must-be-positive error, whose message does not include the formatted current
balance `$-10.00`. -/
theorem C1_counterexample :
    acctNeg.balance < -5 ∧
    withdraw acctNeg (PyVal.float (-5)) =
      (acctNeg, some (PyErr.valueError "Withdraw amount: $-5.00 must be positive.")) ∧
    currencyFmt acctNeg.balance = "$-10.00" ∧
    strContains "Withdraw amount: $-5.00 must be positive." "$-10.00" = false := by
  refine ⟨by decide, ?_, by decide, by decide⟩
  rw [withdraw_nonpos acctNeg (PyVal.float (-5)) (-5) rfl (by decide)]
  decide

/-- C1 witness: the spec scenario `Account(1001, 5001, 100.0)` with
`withdraw(500)`: the raised message mentions `$500.00` and `$100.00`, and the
account is unchanged. -/
theorem C1_withdraw_amended_witness :
    (withdraw acct1001 (PyVal.float 500) =
      (acct1001, some (PyErr.valueError ("Withdrawal amount: " ++ currencyFmt 500 ++
        " must not exceed the current account balance: " ++ currencyFmt acct1001.balance))) ∧
      strContains ("Withdrawal amount: " ++ currencyFmt 500 ++
          " must not exceed the current account balance: " ++ currencyFmt acct1001.balance)
        (currencyFmt 500) = true ∧
      strContains ("Withdrawal amount: " ++ currencyFmt 500 ++
          " must not exceed the current account balance: " ++ currencyFmt acct1001.balance)
        (currencyFmt acct1001.balance) = true) ∧
    currencyFmt 500 = "$500.00" ∧ currencyFmt acct1001.balance = "$100.00" :=
  ⟨(C1_withdraw_amended acct1001 500 (PyVal.float 500)).2.1 (by decide) (by decide),
    by decide, by decide⟩

/-- C2: for every `x > 0`, `deposit(x)` succeeds and increases the balance by
exactly `x`; for `x ≤ 0` it raises `InvalidArgument` with the rejected amount
formatted as currency in the message; for `x ≤ 0` or non-numeric `x` it
raises and leaves the balance (indeed the whole account) unchanged. -/
theorem C2_deposit (a : BankAccount) (x : ℚ) (v : PyVal) :
    (0 < x →
      (deposit a (PyVal.float x)).2 = none ∧
      ((deposit a (PyVal.float x)).1).balance = a.balance + x) ∧
    (x ≤ 0 →
      deposit a (PyVal.float x) =
        (a, some (PyErr.valueError ("Deposit amount: " ++ currencyFmt x ++ " must be positive."))) ∧
      strContains ("Deposit amount: " ++ currencyFmt x ++ " must be positive.")
        (currencyFmt x) = true) ∧
    (pyFloat v = none →
      deposit a v =
        (a, some (PyErr.valueError ("Deposit amount: " ++ pyStr v ++ " must be numeric.")))) := by
  refine ⟨fun hx => ?_, fun hx => ?_, fun hv => ?_⟩
  · rw [deposit_pos a (PyVal.float x) x rfl hx,
      updated_balance_some a (PyVal.float x) x rfl]
    exact ⟨rfl, rfl⟩
  · exact ⟨deposit_nonpos a (PyVal.float x) x rfl hx, strContains_mid _ _ _⟩
  · exact deposit_none a v hv

/-- C2 witness: `deposit(25)` on `Account(1001, 5001, 100.0)` succeeds and
adds exactly 25; `deposit(-3)` raises with `$-3.00` in the message. -/
theorem C2_deposit_witness :
    ((deposit acct1001 (PyVal.float 25)).2 = none ∧
      ((deposit acct1001 (PyVal.float 25)).1).balance = acct1001.balance + 25) ∧
    (deposit acct1001 (PyVal.float (-3)) =
      (acct1001, some (PyErr.valueError ("Deposit amount: " ++ currencyFmt (-3) ++ " must be positive."))) ∧
      strContains ("Deposit amount: " ++ currencyFmt (-3) ++ " must be positive.")
        (currencyFmt (-3)) = true) ∧
    currencyFmt (-3) = "$-3.00" :=
  ⟨(C2_deposit acct1001 25 (PyVal.float 25)).1 (by decide),
    (C2_deposit acct1001 (-3) (PyVal.float (-3))).2.1 (by decide),
    by decide⟩

/-- C3 (amended): constructing an account with an unparseable balance raises
`InvalidArgument`, and the constructor expression yields no account object to
the caller; however `__init__` assigns `self.__balance = 0.0` before raising,
so the partially-initialized object does hold a zeroed (0.0) balance (it is
observable wherever `__init__` runs on an already-created object, e.g. from a
subclass constructor that catches the error). -/
theorem C3_construction_failure (s : InitSelf) (an cn : Int) (bv : PyVal)
    (dc : Option String) (h : pyFloat bv = none) :
    initBA s (PyVal.int an) (PyVal.int cn) bv dc =
      ({ date_created := some (dc.getD "1970-01-01"), account_number := some an,
         client_number := some cn, balance := some 0 },
       some (PyErr.valueError "Invalid balance, set to $0.0")) ∧
    mkBankAccount (PyVal.int an) (PyVal.int cn) bv dc =
      Except.error (PyErr.valueError "Invalid balance, set to $0.0") := by
  constructor
  · unfold initBA
    rw [h]
  · unfold mkBankAccount
    rw [h]

/-- C3 counterexample: after the failed construction
`Account(1001, 5001, "abc")`, the `self` object left behind by `__init__`
holds the zeroed balance `0.0` — the claim asserted no zeroed balance state
exists. -/
theorem C3_counterexample :
    (initBA emptySelf (PyVal.int 1001) (PyVal.int 5001) (PyVal.str "abc") none).2 =
      some (PyErr.valueError "Invalid balance, set to $0.0") ∧
    ((initBA emptySelf (PyVal.int 1001) (PyVal.int 5001) (PyVal.str "abc") none).1).balance =
      some 0 := by
  decide

/-- C3 witness: the amended claim at `Account(1001, 5001, "abc")`. -/
theorem C3_construction_failure_witness :
    initBA emptySelf (PyVal.int 1001) (PyVal.int 5001) (PyVal.str "abc") none =
      ({ date_created := some "1970-01-01", account_number := some 1001,
         client_number := some 5001, balance := some 0 },
       some (PyErr.valueError "Invalid balance, set to $0.0")) ∧
    mkBankAccount (PyVal.int 1001) (PyVal.int 5001) (PyVal.str "abc") none =
      Except.error (PyErr.valueError "Invalid balance, set to $0.0") :=
  C3_construction_failure emptySelf 1001 5001 (PyVal.str "abc") none (by decide)

lemma large_ne_low (b b2 : ℚ) (n n2 : Int) (v : PyVal) :
    largeMessage v b2 n2 ≠ lowMessage b n :=
  (low_ne_large b b2 n n2 v).symm

lemma low_lt_large : LOW_BALANCE_LEVEL < LARGE_TRANSACTION_THRESHOLD := by decide

/-- Full evaluation of the spec scenario `Account(1001, 5001, 100.0)` with
`withdraw(60)`: the balance becomes 40.0 and the low-balance notification
`"Low balance warning 40.0: on account 1001"` is published. -/
lemma withdraw60 :
    withdraw acct1001 (PyVal.float 60) =
      ({ account_number := 1001, client_number := 5001, balance := 40,
         date_created := "1970-01-01",
         notifications := ["Low balance warning 40.0: on account 1001"] }, none) := by
  rw [withdraw_ok acct1001 (PyVal.float 60) 60 rfl (by decide) (by decide),
    updated_balance_some acct1001 (PyVal.float (-60)) (-60) rfl]
  have e : acct1001.balance + -60 = (40 : ℚ) := by
    show (100 : ℚ) + -60 = 40
    norm_num
  rw [e, if_pos (by decide : (40 : ℚ) < LOW_BALANCE_LEVEL),
    if_neg (by decide : ¬((40 : ℚ) > LARGE_TRANSACTION_THRESHOLD))]
  decide

/-- C4: every balance update through `updated_balance` with a numeric amount
succeeds and publishes the low-balance notification exactly when the new
balance is below `LOW_BALANCE_LEVEL`, and — independently, in the same update
— the large-transaction notification exactly when the new balance is above
`LARGE_TRANSACTION_THRESHOLD` (the appended-notification equality pins down
both checks and their order); `deposit` and `withdraw` route their deltas
(positive and negative) through this same update. -/
theorem C4_threshold_checks (a : BankAccount) (q : ℚ) :
    (updated_balance a (PyVal.float q)).2 = none ∧
    ((updated_balance a (PyVal.float q)).1).balance = a.balance + q ∧
    ((updated_balance a (PyVal.float q)).1).notifications =
      a.notifications ++
        (if a.balance + q < LOW_BALANCE_LEVEL then
          [lowMessage (a.balance + q) a.account_number] else []) ++
        (if a.balance + q > LARGE_TRANSACTION_THRESHOLD then
          [largeMessage (PyVal.float q) (a.balance + q) a.account_number] else []) ∧
    (lowMessage (a.balance + q) a.account_number ∈
        (((updated_balance a (PyVal.float q)).1).notifications).drop a.notifications.length ↔
      a.balance + q < LOW_BALANCE_LEVEL) ∧
    (largeMessage (PyVal.float q) (a.balance + q) a.account_number ∈
        (((updated_balance a (PyVal.float q)).1).notifications).drop a.notifications.length ↔
      a.balance + q > LARGE_TRANSACTION_THRESHOLD) ∧
    (0 < q → deposit a (PyVal.float q) = updated_balance a (PyVal.float q)) ∧
    (0 < q → q ≤ a.balance → withdraw a (PyVal.float q) = updated_balance a (PyVal.float (-q))) := by
  rw [updated_balance_some a (PyVal.float q) q rfl]
  refine ⟨rfl, rfl, rfl, ?_, ?_,
    fun h => (deposit_pos a (PyVal.float q) q rfl h).trans
      (updated_balance_some a (PyVal.float q) q rfl),
    fun h1 h2 => withdraw_ok a (PyVal.float q) q rfl h1 h2⟩
  · show lowMessage (a.balance + q) a.account_number ∈
      (a.notifications ++ _ ++ _).drop a.notifications.length ↔ _
    rw [List.append_assoc, List.drop_left]
    by_cases h1 : a.balance + q < LOW_BALANCE_LEVEL <;>
      by_cases h2 : a.balance + q > LARGE_TRANSACTION_THRESHOLD <;>
        simp [h1, h2, low_ne_large]
  · show largeMessage (PyVal.float q) (a.balance + q) a.account_number ∈
      (a.notifications ++ _ ++ _).drop a.notifications.length ↔ _
    rw [List.append_assoc, List.drop_left]
    by_cases h1 : a.balance + q < LOW_BALANCE_LEVEL <;>
      by_cases h2 : a.balance + q > LARGE_TRANSACTION_THRESHOLD <;>
        simp [h1, h2, large_ne_low]

/-- C4 witness: `deposit(25)` and `withdraw(60)` on the scenario account both
route through `updated_balance` with their respective deltas. -/
theorem C4_threshold_checks_witness :
    deposit acct1001 (PyVal.float 25) = updated_balance acct1001 (PyVal.float 25) ∧
    withdraw acct1001 (PyVal.float 60) = updated_balance acct1001 (PyVal.float (-60)) :=
  ⟨(C4_threshold_checks acct1001 25).2.2.2.2.2.1 (by decide),
    (C4_threshold_checks acct1001 60).2.2.2.2.2.2 (by decide) (by decide)⟩

/-- C5: the published messages are exactly the spec templates — low balance:
`Low balance warning {balance}: on account {accountNumber}`; large
transaction: `Large transaction {delta}: on account {accountNumber}` newline
`Details: updated balance is {balance}` — and the scenario
`Account(1001, 5001, 100.0)` then `withdraw(60)` publishes exactly
`"Low balance warning 40.0: on account 1001"`. -/
theorem C5_message_texts :
    (∀ (bal : ℚ) (n : Int),
      lowMessage bal n =
        "Low balance warning " ++ pyReprFloat bal ++ ": on account " ++ toString n) ∧
    (∀ (v : PyVal) (bal : ℚ) (n : Int),
      largeMessage v bal n =
        "Large transaction " ++ pyStr v ++ ": on account " ++ toString n ++
          "\nDetails: updated balance is " ++ pyReprFloat bal) ∧
    mkBankAccount (PyVal.int 1001) (PyVal.int 5001) (PyVal.float 100) none =
      Except.ok acct1001 ∧
    withdraw acct1001 (PyVal.float 60) =
      ({ account_number := 1001, client_number := 5001, balance := 40,
         date_created := "1970-01-01",
         notifications := ["Low balance warning 40.0: on account 1001"] }, none) :=
  ⟨fun _ _ => rfl, fun _ _ _ => rfl, rfl, withdraw60⟩

/-- C6: for all integers `a`, `c` and any value `b` that `float()` parses to
`q`, `Account(a, c, b)` succeeds with `balance == float(b)`,
`accountNumber == a`, `clientNumber == c`, and an omitted `dateCreated`
defaults to the sentinel epoch date 1970-01-01. -/
theorem C6_construct (an cn : Int) (bv : PyVal) (q : ℚ) (h : pyFloat bv = some q) :
    mkBankAccount (PyVal.int an) (PyVal.int cn) bv none =
      Except.ok { account_number := an, client_number := cn, balance := q,
                  date_created := "1970-01-01", notifications := [] } := by
  unfold mkBankAccount
  rw [h]
  rfl

/-- C6 witness: `Account(1001, 5001, "2.5")` constructs with balance 2.5. -/
theorem C6_construct_witness :
    mkBankAccount (PyVal.int 1001) (PyVal.int 5001) (PyVal.str "2.5") none =
      Except.ok { account_number := 1001, client_number := 5001, balance := mkRat 5 2,
                  date_created := "1970-01-01", notifications := [] } :=
  C6_construct 1001 5001 (PyVal.str "2.5") (mkRat 5 2) (by decide)

lemma updated_balanceEx_none (a : BankAccountEx) (v : PyValEx) (h : pyFloatEx v = none) :
    updated_balanceEx a v = (a, some (PyErr.valueError "Amount must be numeric.")) := by
  unfold updated_balanceEx
  rw [h]

lemma updated_balanceEx_some (a : BankAccountEx) (v : PyValEx) (x : PyFloat)
    (h : pyFloatEx v = some x) :
    updated_balanceEx a v =
      ({ account_number := a.account_number, client_number := a.client_number,
         balance := PyFloat.add a.balance x, date_created := a.date_created,
         notifications := a.notifications ++
           (if PyFloat.lt (PyFloat.add a.balance x) LOW_BALANCE_LEVEL_EX then
              [lowMessageEx (PyFloat.add a.balance x) a.account_number] else []) ++
           (if PyFloat.lt LARGE_TRANSACTION_THRESHOLD_EX (PyFloat.add a.balance x) then
              [largeMessageEx v (PyFloat.add a.balance x) a.account_number] else []) },
       none) := by
  unfold updated_balanceEx
  rw [h]
  by_cases h1 : PyFloat.lt (PyFloat.add a.balance x) LOW_BALANCE_LEVEL_EX = true <;>
    by_cases h2 : PyFloat.lt LARGE_TRANSACTION_THRESHOLD_EX (PyFloat.add a.balance x) = true <;>
      simp [h1, h2, notifyEx]

lemma depositEx_none (a : BankAccountEx) (v : PyValEx) (h : pyFloatEx v = none) :
    depositEx a v =
      (a, some (PyErr.valueError ("Deposit amount: " ++ pyStrEx v ++ " must be numeric."))) := by
  unfold depositEx
  rw [h]

lemma depositEx_nonpos (a : BankAccountEx) (v : PyValEx) (x : PyFloat)
    (h : pyFloatEx v = some x) (hx : PyFloat.le x (PyFloat.fin 0) = true) :
    depositEx a v =
      (a, some (PyErr.valueError ("Deposit amount: " ++ currencyFmtEx x ++ " must be positive."))) := by
  unfold depositEx
  rw [h]
  simp [hx]

lemma depositEx_pos (a : BankAccountEx) (v : PyValEx) (x : PyFloat)
    (h : pyFloatEx v = some x) (hx : PyFloat.le x (PyFloat.fin 0) = false) :
    depositEx a v = updated_balanceEx a (PyValEx.float x) := by
  unfold depositEx
  rw [h]
  simp [hx]

lemma withdrawEx_none (a : BankAccountEx) (v : PyValEx) (h : pyFloatEx v = none) :
    withdrawEx a v =
      (a, some (PyErr.valueError ("Withdraw amount: " ++ pyStrEx v ++ " must be numeric."))) := by
  unfold withdrawEx
  rw [h]

lemma withdrawEx_nonpos (a : BankAccountEx) (v : PyValEx) (x : PyFloat)
    (h : pyFloatEx v = some x) (hx : PyFloat.le x (PyFloat.fin 0) = true) :
    withdrawEx a v =
      (a, some (PyErr.valueError ("Withdraw amount: " ++ currencyFmtEx x ++ " must be positive."))) := by
  unfold withdrawEx
  rw [h]
  simp [hx]

lemma withdrawEx_exceed (a : BankAccountEx) (v : PyValEx) (x : PyFloat)
    (h : pyFloatEx v = some x) (hx : PyFloat.le x (PyFloat.fin 0) = false)
    (hb : PyFloat.lt a.balance x = true) :
    withdrawEx a v =
      (a, some (PyErr.valueError ("Withdrawal amount: " ++ currencyFmtEx x ++
        " must not exceed the current account balance: " ++ currencyFmtEx a.balance))) := by
  unfold withdrawEx
  rw [h]
  simp [hx, hb]

lemma withdrawEx_ok (a : BankAccountEx) (v : PyValEx) (x : PyFloat)
    (h : pyFloatEx v = some x) (hx : PyFloat.le x (PyFloat.fin 0) = false)
    (hb : PyFloat.lt a.balance x = false) :
    withdrawEx a v = updated_balanceEx a (PyValEx.float (PyFloat.neg x)) := by
  unfold withdrawEx
  rw [h]
  simp [hx, hb]

/-- C7 counterexample: the balance does NOT stay finite.  On the scenario
account (balance 100.0, finite), `deposit(float('inf'))` passes the
`amount <= 0` validation (`inf <= 0` is false), succeeds, and leaves the
non-finite balance `inf` (publishing the large-transaction message for it);
`deposit(float('nan'))` likewise leaves balance `nan`; and `float()` itself
produces these values from the strings `"inf"` and `"nan"`. -/
theorem C7_counterexample :
    PyFloat.isFinite acct1001Ex.balance = true ∧
    (depositEx acct1001Ex (PyValEx.float PyFloat.inf)).2 = none ∧
    ((depositEx acct1001Ex (PyValEx.float PyFloat.inf)).1).balance = PyFloat.inf ∧
    PyFloat.isFinite ((depositEx acct1001Ex (PyValEx.float PyFloat.inf)).1).balance = false ∧
    (depositEx acct1001Ex (PyValEx.float PyFloat.nan)).2 = none ∧
    ((depositEx acct1001Ex (PyValEx.float PyFloat.nan)).1).balance = PyFloat.nan ∧
    PyFloat.isFinite ((depositEx acct1001Ex (PyValEx.float PyFloat.nan)).1).balance = false ∧
    pyFloatEx (PyValEx.str "inf") = some PyFloat.inf ∧
    pyFloatEx (PyValEx.str "nan") = some PyFloat.nan := by
  decide

/-- C7 (amended): every operation leaves the balance a *defined* float value
— on every path it is either unchanged or the previous balance combined with
the parsed amount by Python float addition — and no operation after
construction changes the account number or the client number.  The balance
need not remain finite: a non-finite amount accepted by `float()` passes the
`amount <= 0` validation and leaves the balance `inf` or `nan` (see the
counterexample). -/
theorem C7_invariants_amended (a : BankAccountEx) (v : PyValEx) :
    ((depositEx a v).1).account_number = a.account_number ∧
    ((depositEx a v).1).client_number = a.client_number ∧
    ((withdrawEx a v).1).account_number = a.account_number ∧
    ((withdrawEx a v).1).client_number = a.client_number ∧
    ((updated_balanceEx a v).1).account_number = a.account_number ∧
    ((updated_balanceEx a v).1).client_number = a.client_number ∧
    (((depositEx a v).1).balance = a.balance ∨
      ∃ x, pyFloatEx v = some x ∧
        ((depositEx a v).1).balance = PyFloat.add a.balance x) ∧
    (((withdrawEx a v).1).balance = a.balance ∨
      ∃ x, pyFloatEx v = some x ∧
        ((withdrawEx a v).1).balance = PyFloat.add a.balance (PyFloat.neg x)) ∧
    (((updated_balanceEx a v).1).balance = a.balance ∨
      ∃ x, pyFloatEx v = some x ∧
        ((updated_balanceEx a v).1).balance = PyFloat.add a.balance x) := by
  cases hv : pyFloatEx v with
  | none =>
    rw [depositEx_none a v hv, withdrawEx_none a v hv, updated_balanceEx_none a v hv]
    simp
  | some x =>
    have hdep : ((depositEx a v).1).account_number = a.account_number ∧
        ((depositEx a v).1).client_number = a.client_number ∧
        (((depositEx a v).1).balance = a.balance ∨
          ∃ p, (some x : Option PyFloat) = some p ∧
            ((depositEx a v).1).balance = PyFloat.add a.balance p) := by
      cases hq : PyFloat.le x (PyFloat.fin 0) with
      | true =>
        rw [depositEx_nonpos a v x hv hq]
        simp
      | false =>
        rw [depositEx_pos a v x hv hq,
          updated_balanceEx_some a (PyValEx.float x) x rfl]
        exact ⟨rfl, rfl, Or.inr ⟨x, rfl, rfl⟩⟩
    have hwit : ((withdrawEx a v).1).account_number = a.account_number ∧
        ((withdrawEx a v).1).client_number = a.client_number ∧
        (((withdrawEx a v).1).balance = a.balance ∨
          ∃ p, (some x : Option PyFloat) = some p ∧
            ((withdrawEx a v).1).balance = PyFloat.add a.balance (PyFloat.neg p)) := by
      cases hq : PyFloat.le x (PyFloat.fin 0) with
      | true =>
        rw [withdrawEx_nonpos a v x hv hq]
        simp
      | false =>
        cases hb : PyFloat.lt a.balance x with
        | true =>
          rw [withdrawEx_exceed a v x hv hq hb]
          simp
        | false =>
          rw [withdrawEx_ok a v x hv hq hb,
            updated_balanceEx_some a (PyValEx.float (PyFloat.neg x)) (PyFloat.neg x) rfl]
          exact ⟨rfl, rfl, Or.inr ⟨x, rfl, rfl⟩⟩
    have hup : ((updated_balanceEx a v).1).account_number = a.account_number ∧
        ((updated_balanceEx a v).1).client_number = a.client_number ∧
        (((updated_balanceEx a v).1).balance = a.balance ∨
          ∃ p, (some x : Option PyFloat) = some p ∧
            ((updated_balanceEx a v).1).balance = PyFloat.add a.balance p) := by
      rw [updated_balanceEx_some a v x hv]
      exact ⟨rfl, rfl, Or.inr ⟨x, rfl, rfl⟩⟩
    exact ⟨hdep.1, hdep.2.1, hwit.1, hwit.2.1, hup.1, hup.2.1,
      hdep.2.2, hwit.2.2, hup.2.2⟩

/-- C8: `toString()` returns exactly
`Account Number: {accountNumber} Balance: ${balance as currency}` with the
currency fixed to two decimals, thousands-separated and dollar-prefixed; on
`Account(1001, 5001, 1234.5)` it yields
`"Account Number: 1001 Balance: $1,234.50"` (and the currency format renders
1234.56 as `$1,234.56`). -/
theorem C8_toString :
    (∀ a : BankAccount,
      bankAccountStr a =
        "Account Number: " ++ toString a.account_number ++ " Balance: $" ++
          fmtCommas2 a.balance) ∧
    mkBankAccount (PyVal.int 1001) (PyVal.int 5001) (PyVal.float (mkRat 2469 2)) none =
      Except.ok { account_number := 1001, client_number := 5001, balance := mkRat 2469 2,
                  date_created := "1970-01-01", notifications := [] } ∧
    bankAccountStr { account_number := 1001, client_number := 5001, balance := mkRat 2469 2,
                     date_created := "1970-01-01", notifications := [] } =
      "Account Number: 1001 Balance: $1,234.50" ∧
    currencyFmt (mkRat 123456 100) = "$1,234.56" :=
  ⟨fun _ => rfl, rfl, rfl, rfl⟩

/-- C9: `deposit` and `withdraw` accept any argument `float()` can parse,
strings included: a string parsing to a positive float deposits exactly its
parsed value (and withdraws it when within balance), and the must-be-numeric
error is raised exactly on the arguments `float()` fails to parse (when the
parse succeeds the outcome is fully determined by the parsed value). -/
theorem C9_parseable_strings (a : BankAccount) (s : String) (q : ℚ) (v : PyVal) :
    (pyFloat (PyVal.str s) = some q → 0 < q →
      deposit a (PyVal.str s) = updated_balance a (PyVal.float q) ∧
      (deposit a (PyVal.str s)).2 = none ∧
      ((deposit a (PyVal.str s)).1).balance = a.balance + q) ∧
    (pyFloat (PyVal.str s) = some q → 0 < q → q ≤ a.balance →
      withdraw a (PyVal.str s) = updated_balance a (PyVal.float (-q)) ∧
      (withdraw a (PyVal.str s)).2 = none ∧
      ((withdraw a (PyVal.str s)).1).balance = a.balance - q) ∧
    (pyFloat v = some q →
      deposit a v =
        if q ≤ 0 then
          (a, some (PyErr.valueError ("Deposit amount: " ++ currencyFmt q ++ " must be positive.")))
        else updated_balance a (PyVal.float q)) ∧
    (pyFloat v = none →
      deposit a v =
        (a, some (PyErr.valueError ("Deposit amount: " ++ pyStr v ++ " must be numeric.")))) ∧
    (pyFloat v = none →
      withdraw a v =
        (a, some (PyErr.valueError ("Withdraw amount: " ++ pyStr v ++ " must be numeric.")))) := by
  refine ⟨fun h hq => ?_, fun h hq hb => ?_, fun h => ?_, deposit_none a v, withdraw_none a v⟩
  · have d := deposit_pos a (PyVal.str s) q h hq
    refine ⟨d, ?_, ?_⟩
    · rw [d, updated_balance_some a (PyVal.float q) q rfl]
    · rw [d, updated_balance_some a (PyVal.float q) q rfl]
  · have w := withdraw_ok a (PyVal.str s) q h hq hb
    refine ⟨w, ?_, ?_⟩
    · rw [w, updated_balance_some a (PyVal.float (-q)) (-q) rfl]
    · rw [w, updated_balance_some a (PyVal.float (-q)) (-q) rfl]
      show a.balance + -q = a.balance - q
      ring
  · by_cases hq : q ≤ 0
    · rw [if_pos hq]
      exact deposit_nonpos a v q h hq
    · rw [if_neg hq]
      exact deposit_pos a v q h (lt_of_not_le hq)

/-- C9 witness: the string `"100"` parses to 100.0, `deposit("100")` adds
exactly 100, and `withdraw("100")` (the full balance) subtracts it. -/
theorem C9_parseable_strings_witness :
    pyFloat (PyVal.str "100") = some 100 ∧
    (deposit acct1001 (PyVal.str "100") = updated_balance acct1001 (PyVal.float 100) ∧
      (deposit acct1001 (PyVal.str "100")).2 = none ∧
      ((deposit acct1001 (PyVal.str "100")).1).balance = acct1001.balance + 100) ∧
    (withdraw acct1001 (PyVal.str "100") = updated_balance acct1001 (PyVal.float (-100)) ∧
      (withdraw acct1001 (PyVal.str "100")).2 = none ∧
      ((withdraw acct1001 (PyVal.str "100")).1).balance = acct1001.balance - 100) :=
  ⟨by decide,
    (C9_parseable_strings acct1001 "100" 100 (PyVal.int 0)).1 (by decide) (by decide),
    (C9_parseable_strings acct1001 "100" 100 (PyVal.int 0)).2.1 (by decide) (by decide)
      (by decide)⟩

/-- C10: the low-balance notification is published on every successful update
whose resulting balance is below 50.0 — no threshold crossing is required:
two consecutive deposits whose results both stay below `LOW_BALANCE_LEVEL`
each publish a fresh low-balance notification, and symmetrically two
consecutive deposits whose results both stay above
`LARGE_TRANSACTION_THRESHOLD` each publish a fresh large-transaction
notification. -/
theorem C10_no_crossing_required (a : BankAccount) (q1 q2 : ℚ) :
    (0 < q1 → 0 < q2 → a.balance + q1 < LOW_BALANCE_LEVEL →
      a.balance + q1 + q2 < LOW_BALANCE_LEVEL →
      (deposit a (PyVal.float q1)).2 = none ∧
      (deposit ((deposit a (PyVal.float q1)).1) (PyVal.float q2)).2 = none ∧
      ((deposit ((deposit a (PyVal.float q1)).1) (PyVal.float q2)).1).notifications =
        a.notifications ++ [lowMessage (a.balance + q1) a.account_number,
          lowMessage (a.balance + q1 + q2) a.account_number]) ∧
    (0 < q1 → 0 < q2 → a.balance + q1 > LARGE_TRANSACTION_THRESHOLD →
      a.balance + q1 + q2 > LARGE_TRANSACTION_THRESHOLD →
      ((deposit ((deposit a (PyVal.float q1)).1) (PyVal.float q2)).1).notifications =
        a.notifications ++ [largeMessage (PyVal.float q1) (a.balance + q1) a.account_number,
          largeMessage (PyVal.float q2) (a.balance + q1 + q2) a.account_number]) := by
  constructor
  · intro h1 h2 hb1 hb2
    have hL1 : ¬(a.balance + q1 > LARGE_TRANSACTION_THRESHOLD) :=
      not_lt.mpr (le_of_lt (lt_trans hb1 low_lt_large))
    have hL2 : ¬(a.balance + q1 + q2 > LARGE_TRANSACTION_THRESHOLD) :=
      not_lt.mpr (le_of_lt (lt_trans hb2 low_lt_large))
    rw [deposit_pos a (PyVal.float q1) q1 rfl h1,
      updated_balance_some a (PyVal.float q1) q1 rfl]
    rw [deposit_pos _ (PyVal.float q2) q2 rfl h2,
      updated_balance_some _ (PyVal.float q2) q2 rfl]
    simp [hb1, hb2, hL1, hL2]
  · intro h1 h2 hb1 hb2
    have hS1 : ¬(a.balance + q1 < LOW_BALANCE_LEVEL) :=
      not_lt.mpr (le_of_lt (lt_trans low_lt_large hb1))
    have hS2 : ¬(a.balance + q1 + q2 < LOW_BALANCE_LEVEL) :=
      not_lt.mpr (le_of_lt (lt_trans low_lt_large hb2))
    rw [deposit_pos a (PyVal.float q1) q1 rfl h1,
      updated_balance_some a (PyVal.float q1) q1 rfl]
    rw [deposit_pos _ (PyVal.float q2) q2 rfl h2,
      updated_balance_some _ (PyVal.float q2) q2 rfl]
    simp [hb1, hb2, hS1, hS2]

/-- C10 witness: from balance 10, two deposits of 5 (results 15 and 20, both
below 50) each publish a low-balance notification; from balance 20000, two
deposits of 5 (both results above 9999.99) each publish a large-transaction
notification. -/
theorem C10_no_crossing_required_witness :
    ((deposit acctLow (PyVal.float 5)).2 = none ∧
      (deposit ((deposit acctLow (PyVal.float 5)).1) (PyVal.float 5)).2 = none ∧
      ((deposit ((deposit acctLow (PyVal.float 5)).1) (PyVal.float 5)).1).notifications =
        acctLow.notifications ++ [lowMessage (acctLow.balance + 5) acctLow.account_number,
          lowMessage (acctLow.balance + 5 + 5) acctLow.account_number]) ∧
    ((deposit ((deposit acctHigh (PyVal.float 5)).1) (PyVal.float 5)).1).notifications =
      acctHigh.notifications ++
        [largeMessage (PyVal.float 5) (acctHigh.balance + 5) acctHigh.account_number,
          largeMessage (PyVal.float 5) (acctHigh.balance + 5 + 5) acctHigh.account_number] :=
  ⟨(C10_no_crossing_required acctLow 5 5).1 (by decide) (by decide)
      (by norm_num [acctLow, LOW_BALANCE_LEVEL])
      (by norm_num [acctLow, LOW_BALANCE_LEVEL]),
    (C10_no_crossing_required acctHigh 5 5).2 (by decide) (by decide)
      (by norm_num [acctHigh, LARGE_TRANSACTION_THRESHOLD, Rat.mkRat_eq_div])
      (by norm_num [acctHigh, LARGE_TRANSACTION_THRESHOLD, Rat.mkRat_eq_div])⟩

end BankAcct
